import Mathlib

/-!
# SSL command group of the namecheap client (`ssl.go`)

A shallow embedding of the five operations of `ssl.go` (`SslGetList`, `SslCreate`,
`SslActivate`, `SslReissue`, `SslGetInfo`) together with the facts about request building,
local validation and response projection that the specification states for them.

Conventions of the embedding

* A Go `string` is a sequence of bytes (`GoString`), valid UTF-8 or not.
* A Go `int` is an `Int` (the operations only format it in base 10); a Go pointer or
  slice that may be `nil` is an `Option`.
* `url.Values` is an association list with unique keys, read through `Values.lookup`.
* The transport `client.do` is a function from the request to the pair `(resp, err)` it
  returns. Every operation calls it at most once, so a function describes any behaviour
  of the transport that one call can observe.
* An operation evaluates to a `Call`: the requests it handed to the transport, in order,
  and how it ended (the returned pair, or the run-time fault of dereferencing a nil
  response).
-/

namespace Namecheap

/-! ## Go strings and the library functions `ssl.go` uses -/

/-- A Go string: a sequence of bytes, each a number below 256. -/
abbrev GoString := List Nat

/-- UTF-8 encoding of one code point, as the Go compiler stores it in a string constant. -/
def utf8EncodeRune (r : Nat) : List Nat :=
  if r < 0x80 then [r]
  else if r < 0x800 then [0xC0 + r / 64, 0x80 + r % 64]
  else if r < 0x10000 then [0xE0 + r / 4096, 0x80 + r / 64 % 64, 0x80 + r % 64]
  else [0xF0 + r / 262144, 0x80 + r / 4096 % 64, 0x80 + r / 64 % 64, 0x80 + r % 64]

/-- The bytes of a string constant of the source file. -/
def str (s : String) : GoString :=
  s.toList.flatMap (fun c => utf8EncodeRune c.toNat)

/-- Digits of `n` in base 10, most significant first, pushed in front of `acc`.
At most `fuel` digits are produced; `n + 1` is always enough. -/
def formatDecimal (fuel n : Nat) (acc : GoString) : GoString :=
  match fuel with
  | 0 => acc
  | fuel + 1 =>
    let acc := (48 + n % 10) :: acc
    if n / 10 = 0 then acc else formatDecimal fuel (n / 10) acc

/-- `strconv.FormatUint(n, 10)`. -/
def FormatUint (n : Nat) : GoString :=
  formatDecimal (n + 1) n []

/-- `strconv.Itoa`: a minus sign for a negative number, then the decimal digits of the
magnitude. -/
def Itoa (i : Int) : GoString :=
  if i < 0 then 45 :: FormatUint i.natAbs else FormatUint i.natAbs

/-- Value of a sequence of decimal digit bytes read most significant first, or `none`
when a byte is not a digit. -/
def parseDigits (acc : Nat) : GoString → Option Nat
  | [] => some acc
  | b :: rest => if 48 ≤ b ∧ b ≤ 57 then parseDigits (10 * acc + (b - 48)) rest else none

/-- The integer that a base-10 numeral with an optional leading minus sign denotes, or
`none` when the bytes are not such a numeral. It states what "decimal string of an
integer" means, independently of how `Itoa` produces one. -/
def readDecimal (s : GoString) : Option Int :=
  match s with
  | [] => none
  | b :: rest =>
    if b = 45 then
      if rest = [] then none else (parseDigits 0 rest).map (fun (n : Nat) => - Int.ofNat n)
    else (parseDigits 0 (b :: rest)).map (fun (n : Nat) => Int.ofNat n)

/-- Whether every byte is below `utf8.RuneSelf`. -/
def isASCII (s : GoString) : Bool :=
  s.all (fun c => decide (c < 0x80))

/-- Lower-casing of one ASCII byte: `c += 'a' - 'A'` when `'A' <= c && c <= 'Z'`. -/
def lowerByte (c : Nat) : Nat :=
  if 65 ≤ c ∧ c ≤ 90 then c + 32 else c

/-- `strings.ToLower`. A string of ASCII bytes is lower-cased byte by byte (and returned
as it is when it has no upper-case letter). A string with a byte of `0x80` or above goes
through `strings.Map(unicode.ToLower, s)`, which depends on the Unicode tables of the Go
library: that path is the parameter `mapLower`. -/
def ToLower (mapLower : GoString → GoString) (s : GoString) : GoString :=
  let hasUpper := s.any (fun c => decide (65 ≤ c ∧ c ≤ 90))
  if isASCII s then
    if !hasUpper then s else s.map lowerByte
  else
    mapLower s

/-- Two strings match case-insensitively when lower-casing makes them equal. -/
def caseInsensitiveMatch (mapLower : GoString → GoString) (s t : GoString) : Prop :=
  ToLower mapLower s = ToLower mapLower t

instance (mapLower : GoString → GoString) (s t : GoString) :
    Decidable (caseInsensitiveMatch mapLower s t) :=
  inferInstanceAs (Decidable (ToLower mapLower s = ToLower mapLower t))

/-- Two ASCII strings match letter by letter, each letter in either case: the strings
have the same length and equal bytes once `A`..`Z` are mapped to `a`..`z`. -/
def asciiFoldEq : GoString → GoString → Bool
  | [], [] => true
  | a :: s, b :: t => decide (lowerByte a = lowerByte b) && asciiFoldEq s t
  | _, _ => false

/-- `fmt.Sprintf` for a format whose only verb is one `%s` and a string operand: the
bytes of the format are copied and the operand replaces the verb verbatim. -/
def Sprintf (format arg : GoString) : GoString :=
  match format with
  | [] => []
  | 37 :: 115 :: rest => arg ++ rest
  | c :: rest => c :: Sprintf rest arg

/-- A Go `error` value: one built by `fmt.Errorf`, with its message, or one that comes
from the transport, identified by a tag. -/
inductive error where
  | Errorf (msg : GoString)
  | transport (tag : Nat)
  deriving DecidableEq

/-! ## `url.Values` -/

/-- The type `url.Values`, a `map[string][]string`. -/
structure Values where
  entries : List (GoString × List GoString)
  deriving DecidableEq

/-- The empty map `url.Values{}`. -/
def Values.empty : Values := ⟨[]⟩

/-- Assignment `m[key] = vs` on the entries of a map. -/
def assign (key : GoString) (vs : List GoString) :
    List (GoString × List GoString) → List (GoString × List GoString)
  | [] => [(key, vs)]
  | (k, old) :: rest => if k = key then (k, vs) :: rest else (k, old) :: assign key vs rest

/-- `Values.Set`: `v[key] = []string{value}`, replacing what the key held. -/
def Values.Set (v : Values) (key value : GoString) : Values :=
  ⟨assign key [value] v.entries⟩

/-- The map read at a key: `v[key]` with its presence (`none` for an absent key). -/
def Values.lookup (v : Values) (key : GoString) : Option (List GoString) :=
  (v.entries.find? (fun e => decide (e.1 = key))).map (fun e => e.2)

/-- Whether the key is present in the map. -/
def Values.Has (v : Values) (key : GoString) : Bool :=
  (v.lookup key).isSome

/-- The keys of the map. -/
def Values.keys (v : Values) : List GoString :=
  v.entries.map (fun e => e.1)

/-! ## Types of `ssl.go` -/

def sslActivate : GoString := str "namecheap.ssl.activate"

def sslCreate : GoString := str "namecheap.ssl.create"

def sslGetList : GoString := str "namecheap.ssl.getList"

def sslReissue : GoString := str "namecheap.ssl.reissue"

def sslGetInfo : GoString := str "namecheap.ssl.getInfo"

/-- A Go `float64`, kept as its IEEE-754 bit pattern. -/
structure float64 where
  bits : Nat
  deriving DecidableEq

structure SslGetListResult where
  CertificateID : Int
  HostName : GoString
  SSLType : GoString
  PurchaseDate : GoString
  ExpireDate : GoString
  ActivationExpireDate : GoString
  IsExpired : Bool
  Status : GoString
  deriving DecidableEq

structure SSLCertificate where
  CertificateID : Int
  SSLType : GoString
  Created : GoString
  Years : Int
  Status : GoString
  deriving DecidableEq

structure SslCreateResult where
  IsSuccess : Bool
  OrderId : Int
  TransactionId : Int
  ChargedAmount : float64
  SSLCertificate : Option (List SSLCertificate)
  deriving DecidableEq

structure SslActivateParams where
  CertificateId : Int
  Csr : GoString
  AdminEmailAddress : GoString
  WebServerType : GoString
  ApproverEmail : GoString
  IsHTTPDCValidation : Bool
  IsDNSDCValidation : Bool
  deriving DecidableEq

structure SslDns where
  Domain : GoString
  FileName : GoString
  FileContent : GoString
  HostName : GoString
  Target : GoString
  deriving DecidableEq

structure SslDcValidation where
  ValueAvailable : Bool
  Dns : SslDns
  deriving DecidableEq

structure SslActivateResult where
  ID : Int
  IsSuccess : Bool
  HttpDCValidation : SslDcValidation
  DNSDCValidation : SslDcValidation
  deriving DecidableEq

structure SslReissueParams where
  CertificateId : Int
  Csr : GoString
  AdminEmailAddress : GoString
  WebServerType : GoString
  ApproverEmail : GoString
  IsHTTPDCValidation : Bool
  IsDNSDCValidation : Bool
  deriving DecidableEq

structure SslReissueResult where
  ID : Int
  IsSuccess : Bool
  HttpDCValidation : SslDcValidation
  DNSDCValidation : SslDcValidation
  deriving DecidableEq

structure SslGetInfoParams where
  CertificateId : Int
  ReturnCertificate : Bool
  ReturnType : GoString
  deriving DecidableEq

/-- The field `Type` of the source is `Type_` here, `Type` being reserved. -/
structure CaCertificate where
  Type_ : GoString
  Certificate : GoString
  deriving DecidableEq

structure Certificates where
  CertificateReturned : GoString
  ReturnType : GoString
  Certificate : GoString
  CaCertificates : Option (List (Option CaCertificate))
  deriving DecidableEq

structure CertificateDetails where
  CSR : GoString
  ApproverEmail : GoString
  CommonDomain : GoString
  AdministratorName : GoString
  AdministratorEmail : GoString
  Certificates : Option Certificates
  deriving DecidableEq

structure Provider where
  OrderID : GoString
  Name : GoString
  deriving DecidableEq

/-- The field `Type` of the source is `Type_` here, `Type` being reserved. -/
structure SslGetInfoResult where
  Status : GoString
  StatusDescription : GoString
  Type_ : GoString
  IssuedOn : GoString
  Expires : GoString
  ActivationExpireDate : GoString
  OrderId : GoString
  ReplacedBy : GoString
  SANSCount : GoString
  CertificateDetails : Option CertificateDetails
  Provider : Option Provider
  deriving DecidableEq

/-! ## The transport interface -/

/-- The request record `ApiRequest` that `ssl.go` fills and hands to `client.do`. -/
structure ApiRequest where
  command : GoString
  method : GoString
  params : Values
  deriving DecidableEq

/-- Modelled from the spec: the response envelope `ApiResponse`, declared outside
`ssl.go`. Only the five fields that `ssl.go` reads are kept, with the types the five
operations return them at. -/
structure ApiResponse where
  SslCertificates : Option (List SslGetListResult)
  SslCreate : Option SslCreateResult
  SslActivate : Option SslActivateResult
  SslReissue : Option SslReissueResult
  SslCertificateDetails : Option SslGetInfoResult
  deriving DecidableEq

/-- The client, reduced to its transport method `do`, which is declared outside `ssl.go`:
the pair `(resp, err)` it returns for a request. -/
structure Client where
  do_ : ApiRequest → Option ApiResponse × Option error

/-- How a call of an operation ends: it returns the pair `(result, err)`, or it faults
on `resp.Field` with `resp == nil`. -/
inductive Outcome (α : Type) where
  | ret (result : Option α) (err : Option error)
  | nilDeref
  deriving DecidableEq

/-- The observable run of an operation: the requests handed to `client.do`, in order,
and the outcome. -/
structure Call (α : Type) where
  sent : List ApiRequest
  outcome : Outcome α

/-- The statement `requestInfo.params.Set(key, value)`: the request with the parameter
set. -/
def ApiRequest.setParam (requestInfo : ApiRequest) (key value : GoString) : ApiRequest :=
  { requestInfo with params := requestInfo.params.Set key value }

/-! ## The operations -/

/-- `func (client *Client) SslGetList() ([]SslGetListResult, error)`. -/
def SslGetList (client : Client) : Call (List SslGetListResult) :=
  let requestInfo : ApiRequest :=
    { command := sslGetList, method := str "POST", params := Values.empty }
  { sent := [requestInfo]
    outcome :=
      match client.do_ requestInfo with
      | (_, some err) => .ret none (some err)
      | (some resp, none) => .ret resp.SslCertificates none
      | (none, none) => .nilDeref }

/-- `func (client *Client) SslCreate(productType string, years int)
(*SslCreateResult, error)`. -/
def SslCreate (client : Client) (productType : GoString) (years : Int) :
    Call SslCreateResult :=
  let requestInfo : ApiRequest :=
    { command := sslCreate, method := str "POST", params := Values.empty }
  let requestInfo := requestInfo.setParam (str "Type") productType
  let requestInfo := requestInfo.setParam (str "Years") (Itoa years)
  { sent := [requestInfo]
    outcome :=
      match client.do_ requestInfo with
      | (_, some err) => .ret none (some err)
      | (some resp, none) => .ret resp.SslCreate none
      | (none, none) => .nilDeref }

/-- `func (client *Client) SslActivate(params SslActivateParams)
(*SslActivateResult, error)`. -/
def SslActivate (client : Client) (params : SslActivateParams) : Call SslActivateResult :=
  let requestInfo : ApiRequest :=
    { command := sslActivate, method := str "POST", params := Values.empty }
  let requestInfo := requestInfo.setParam (str "CertificateID") (Itoa params.CertificateId)
  let requestInfo := requestInfo.setParam (str "CSR") params.Csr
  let requestInfo := requestInfo.setParam (str "AdminEmailAddress") params.AdminEmailAddress
  let requestInfo := requestInfo.setParam (str "WebServerType") params.WebServerType
  let requestInfo :=
    if params.IsHTTPDCValidation then
      requestInfo.setParam (str "HTTPDCValidation") (str "true")
    else requestInfo
  let requestInfo :=
    if params.IsDNSDCValidation then
      requestInfo.setParam (str "DNSDCValidation") (str "true")
    else requestInfo
  let requestInfo :=
    if params.ApproverEmail.length > 0 then
      requestInfo.setParam (str "ApproverEmail") params.ApproverEmail
    else requestInfo
  { sent := [requestInfo]
    outcome :=
      match client.do_ requestInfo with
      | (_, some err) => .ret none (some err)
      | (some resp, none) => .ret resp.SslActivate none
      | (none, none) => .nilDeref }

/-- `func (client *Client) SslReissue(params SslReissueParams)
(*SslReissueResult, error)`. -/
def SslReissue (client : Client) (params : SslReissueParams) : Call SslReissueResult :=
  let requestInfo : ApiRequest :=
    { command := sslReissue, method := str "POST", params := Values.empty }
  let requestInfo := requestInfo.setParam (str "CertificateID") (Itoa params.CertificateId)
  let requestInfo := requestInfo.setParam (str "CSR") params.Csr
  let requestInfo := requestInfo.setParam (str "AdminEmailAddress") params.AdminEmailAddress
  let requestInfo := requestInfo.setParam (str "WebServerType") params.WebServerType
  let requestInfo :=
    if params.IsHTTPDCValidation then
      requestInfo.setParam (str "HTTPDCValidation") (str "true")
    else requestInfo
  let requestInfo :=
    if params.IsDNSDCValidation then
      requestInfo.setParam (str "DNSDCValidation") (str "true")
    else requestInfo
  let requestInfo :=
    if params.ApproverEmail.length > 0 then
      requestInfo.setParam (str "ApproverEmail") params.ApproverEmail
    else requestInfo
  { sent := [requestInfo]
    outcome :=
      match client.do_ requestInfo with
      | (_, some err) => .ret none (some err)
      | (some resp, none) => .ret resp.SslReissue none
      | (none, none) => .nilDeref }

/-- `func (client *Client) SslGetInfo(params SslGetInfoParams)
(*SslGetInfoResult, error)`. The parameter `mapLower` is the Unicode path of
`strings.ToLower`. The local function `finish` is the end of the body, from the call of
`client.do` on, which the rejecting branch leaves out by returning early. -/
def SslGetInfo (mapLower : GoString → GoString) (client : Client)
    (params : SslGetInfoParams) : Call SslGetInfoResult :=
  let requestInfo : ApiRequest :=
    { command := sslGetInfo, method := str "POST", params := Values.empty }
  let requestInfo := requestInfo.setParam (str "CertificateID") (Itoa params.CertificateId)
  let finish (requestInfo : ApiRequest) : Call SslGetInfoResult :=
    { sent := [requestInfo]
      outcome :=
        match client.do_ requestInfo with
        | (_, some err) => .ret none (some err)
        | (some resp, none) => .ret resp.SslCertificateDetails none
        | (none, none) => .nilDeref }
  if params.ReturnCertificate then
    let requestInfo := requestInfo.setParam (str "returncertificate") (str "true")
    if ToLower mapLower params.ReturnType = str "individual"
        ∨ params.ReturnType = str "PKCS7" then
      let requestInfo := requestInfo.setParam (str "returntype") params.ReturnType
      finish requestInfo
    else
      { sent := []
        outcome :=
          .ret none (some (.Errorf (Sprintf
            (str "invalid return-type: %s, parameter takes “Individual” (for X.509 format) or “PKCS7” values")
            params.ReturnType))) }
  else
    finish requestInfo

/-- A call that ends in a local validation error: nothing was handed to the transport,
the result is nil and the error is one built by `fmt.Errorf`. -/
def Call.isValidationError {α : Type} (c : Call α) : Prop :=
  c.sent = [] ∧ ∃ msg, c.outcome = .ret none (some (.Errorf msg))

/-- The `ReturnType` values the specification allows when the certificate is asked for:
a case-insensitive match of `Individual`, or exactly `PKCS7`. -/
def allowedReturnType (mapLower : GoString → GoString) (rt : GoString) : Prop :=
  caseInsensitiveMatch mapLower rt (str "Individual") ∨ rt = str "PKCS7"

/-- The text of the validation error for a `ReturnType` value, as the format string of
`SslGetInfo` lays it out. -/
def invalidReturnTypeMessage (rt : GoString) : GoString :=
  str "invalid return-type: " ++ rt
    ++ str ", parameter takes “Individual” (for X.509 format) or “PKCS7” values"

/-- A response envelope in which only the activate result is populated. -/
def activateOnlyResponse (a : SslActivateResult) : ApiResponse :=
  { SslCertificates := none, SslCreate := none, SslActivate := some a,
    SslReissue := none, SslCertificateDetails := none }

/-- A transport that answers every request with the same pair. -/
def constClient (resp : Option ApiResponse) (err : Option error) : Client :=
  { do_ := fun _ => (resp, err) }

/-- Parameters of `SslGetInfo` that get past the local check: the certificate is not asked
for, or the `ReturnType` is an allowed one. -/
def passesValidation (mapLower : GoString → GoString) (params : SslGetInfoParams) : Prop :=
  params.ReturnCertificate = true → allowedReturnType mapLower params.ReturnType

/-- A sample row of the certificate list. -/
def sampleListRow : SslGetListResult :=
  { CertificateID := 11, HostName := str "example.com", SSLType := str "PositiveSSL",
    PurchaseDate := [], ExpireDate := [], ActivationExpireDate := [], IsExpired := false,
    Status := str "active" }

/-- A sample create result. -/
def sampleCreateResult : SslCreateResult :=
  { IsSuccess := true, OrderId := 3, TransactionId := 4, ChargedAmount := ⟨0⟩,
    SSLCertificate := some [⟨11, str "PositiveSSL", [], 2, str "NewPurchase"⟩] }

/-- A sample reissue result. -/
def sampleReissueResult : SslReissueResult :=
  { ID := 9, IsSuccess := true,
    HttpDCValidation := { ValueAvailable := false, Dns := ⟨[], [], [], [], []⟩ },
    DNSDCValidation := { ValueAvailable := true, Dns := ⟨str "example.com", [], [], [], []⟩ } }

/-- A sample certificate-details result. -/
def sampleInfoResult : SslGetInfoResult :=
  { Status := str "active", StatusDescription := [], Type_ := str "PositiveSSL",
    IssuedOn := [], Expires := [], ActivationExpireDate := [], OrderId := str "3",
    ReplacedBy := [], SANSCount := str "0", CertificateDetails := none,
    Provider := some ⟨str "3", str "Comodo"⟩ }

/-- A sample activate result, for concrete instances. -/
def sampleActivateResult : SslActivateResult :=
  { ID := 7, IsSuccess := true,
    HttpDCValidation := { ValueAvailable := false, Dns := ⟨[], [], [], [], []⟩ },
    DNSDCValidation := { ValueAvailable := false, Dns := ⟨[], [], [], [], []⟩ } }

/-- A response envelope with all five fields populated. -/
def sampleFullResponse : ApiResponse :=
  { SslCertificates := some [sampleListRow], SslCreate := some sampleCreateResult,
    SslActivate := some sampleActivateResult, SslReissue := some sampleReissueResult,
    SslCertificateDetails := some sampleInfoResult }

/-! ## Lemmas on the library model -/

@[simp] theorem setParam_command (r : ApiRequest) (key value : GoString) :
    (r.setParam key value).command = r.command := rfl

@[simp] theorem setParam_method (r : ApiRequest) (key value : GoString) :
    (r.setParam key value).method = r.method := rfl

@[simp] theorem setParam_params (r : ApiRequest) (key value : GoString) :
    (r.setParam key value).params = r.params.Set key value := rfl

theorem ite_setParam_command (c : Prop) [Decidable c] (r : ApiRequest)
    (key value : GoString) :
    (if c then r.setParam key value else r).command = r.command := by
  split <;> rfl

theorem ite_setParam_method (c : Prop) [Decidable c] (r : ApiRequest)
    (key value : GoString) :
    (if c then r.setParam key value else r).method = r.method := by
  split <;> rfl


theorem lookup_assign (key : GoString) (vs : List GoString)
    (es : List (GoString × List GoString)) (k : GoString) :
    ((assign key vs es).find? (fun e => decide (e.1 = k))).map (fun e => e.2)
      = if k = key then some vs
        else (es.find? (fun e => decide (e.1 = k))).map (fun e => e.2) := by
  induction es with
  | nil =>
    by_cases h : key = k
    · simp [assign, h]
    · have h2 : ¬ k = key := fun e => h e.symm
      simp [assign, h, h2]
  | cons e rest ih =>
    obtain ⟨k0, old⟩ := e
    by_cases h0 : k0 = key
    · subst h0
      by_cases h1 : k0 = k
      · subst h1; simp [assign]
      · have h2 : ¬ k = k0 := fun e => h1 e.symm
        simp [assign, h1, h2, List.find?]
    · by_cases h1 : k0 = k
      · subst h1
        have h2 : ¬ k0 = key := h0
        simp [assign, h0, List.find?]
      · simp only [assign, h0, if_false, List.find?, h1, decide_False]
        exact ih

/-- Reading a map after `Set`: the key just set holds the one value, the others are
unchanged. -/
theorem lookup_Set (v : Values) (key value k : GoString) :
    (v.Set key value).lookup k = if k = key then some [value] else v.lookup k := by
  simp only [Values.Set, Values.lookup]
  exact lookup_assign key [value] v.entries k

theorem lookup_empty (k : GoString) : Values.empty.lookup k = none := rfl

/-- Reading the parameters after a conditional `Set`. -/
theorem lookup_ite_setParam (c : Prop) [Decidable c] (r : ApiRequest)
    (key value k : GoString) :
    (if c then r.setParam key value else r).params.lookup k
      = if c ∧ k = key then some [value] else r.params.lookup k := by
  by_cases hc : c
  · simp only [hc, if_true, setParam_params, lookup_Set, true_and]
  · simp only [hc, if_false, false_and]

theorem parseDigits_append (xs ys : GoString) (a : Nat) :
    parseDigits a (xs ++ ys) = (parseDigits a xs).bind (fun v => parseDigits v ys) := by
  induction xs generalizing a with
  | nil => simp [parseDigits]
  | cons b rest ih =>
    by_cases h : 48 ≤ b ∧ b ≤ 57
    · simp [parseDigits, h, ih]
    · simp [parseDigits, h]

theorem formatDecimal_acc (fuel n : Nat) (acc : GoString) :
    formatDecimal fuel n acc = formatDecimal fuel n [] ++ acc := by
  induction fuel generalizing n acc with
  | zero => simp [formatDecimal]
  | succ fuel ih =>
    by_cases h : n / 10 = 0
    · simp [formatDecimal, h]
    · simp only [formatDecimal, h, if_false]
      rw [ih (n / 10) ((48 + n % 10) :: acc), ih (n / 10) [48 + n % 10]]
      simp

/-- The digits `formatDecimal` writes read back as the number, given enough fuel. -/
theorem parseDigits_formatDecimal (fuel n : Nat) (h : n < fuel) :
    parseDigits 0 (formatDecimal fuel n []) = some n := by
  induction fuel generalizing n with
  | zero => omega
  | succ fuel ih =>
    by_cases h0 : n / 10 = 0
    · have hn : n < 10 := by omega
      have h1 : n % 10 = n := Nat.mod_eq_of_lt hn
      have h2 : 48 + n ≤ 57 := by omega
      simp [formatDecimal, h0, parseDigits, h1, h2]
    · have hlt : n / 10 < fuel := by omega
      simp only [formatDecimal, h0, if_false]
      rw [formatDecimal_acc, parseDigits_append, ih (n / 10) hlt]
      have h2 : 48 + n % 10 ≤ 57 := by omega
      simp only [Option.some_bind, parseDigits, Nat.le_add_right, h2, and_self, if_true]
      congr 1
      omega

/-- The first byte `formatDecimal` writes is a digit. -/
theorem formatDecimal_head (fuel n : Nat) :
    ∃ d tail, formatDecimal (fuel + 1) n [] = d :: tail ∧ 48 ≤ d ∧ d ≤ 57 := by
  induction fuel generalizing n with
  | zero =>
    refine ⟨48 + n % 10, [], ?_, by omega, by omega⟩
    by_cases h : n / 10 = 0 <;> simp [formatDecimal, h]
  | succ fuel ih =>
    by_cases h : n / 10 = 0
    · exact ⟨48 + n % 10, [], by simp [formatDecimal, h], by omega, by omega⟩
    · obtain ⟨d, tail, he, hd⟩ := ih (n / 10)
      refine ⟨d, tail ++ [48 + n % 10], ?_, hd⟩
      have : formatDecimal (fuel + 1 + 1) n [] = formatDecimal (fuel + 1) (n / 10) [48 + n % 10] := by
        simp [formatDecimal, h]
      rw [this, formatDecimal_acc, he]
      simp

/-- The string `Itoa` writes is a base-10 numeral of its argument: it reads back as the
same integer. -/
theorem readDecimal_Itoa (i : Int) : readDecimal (Itoa i) = some i := by
  obtain ⟨d, tail, he, hd1, hd2⟩ := formatDecimal_head i.natAbs i.natAbs
  have hp := parseDigits_formatDecimal (i.natAbs + 1) i.natAbs (by omega)
  have hd : ¬ d = 45 := by omega
  by_cases hneg : i < 0
  · simp only [Itoa, hneg, if_true, FormatUint, readDecimal]
    rw [hp]
    simp only [he, reduceCtorEq, if_false, Option.map_some', Option.some.injEq,
      Int.ofNat_eq_coe]
    omega
  · simp only [Itoa, hneg, if_false, FormatUint, readDecimal, he, hd]
    rw [← he, hp]
    simp only [Option.map_some', Option.some.injEq, Int.ofNat_eq_coe]
    omega

/-! ## The bytes of the string constants -/

theorem bytes_CertificateID : str "CertificateID" = [67, 101, 114, 116, 105, 102, 105, 99, 97, 116, 101, 73, 68] := by decide

theorem bytes_CSR : str "CSR" = [67, 83, 82] := by decide

theorem bytes_AdminEmailAddress : str "AdminEmailAddress" = [65, 100, 109, 105, 110, 69, 109, 97, 105, 108, 65, 100, 100, 114, 101, 115, 115] := by decide

theorem bytes_WebServerType : str "WebServerType" = [87, 101, 98, 83, 101, 114, 118, 101, 114, 84, 121, 112, 101] := by decide

theorem bytes_HTTPDCValidation : str "HTTPDCValidation" = [72, 84, 84, 80, 68, 67, 86, 97, 108, 105, 100, 97, 116, 105, 111, 110] := by decide

theorem bytes_DNSDCValidation : str "DNSDCValidation" = [68, 78, 83, 68, 67, 86, 97, 108, 105, 100, 97, 116, 105, 111, 110] := by decide

theorem bytes_ApproverEmail : str "ApproverEmail" = [65, 112, 112, 114, 111, 118, 101, 114, 69, 109, 97, 105, 108] := by decide

theorem bytes_Type : str "Type" = [84, 121, 112, 101] := by decide

theorem bytes_Years : str "Years" = [89, 101, 97, 114, 115] := by decide

theorem bytes_returncertificate : str "returncertificate" = [114, 101, 116, 117, 114, 110, 99, 101, 114, 116, 105, 102, 105, 99, 97, 116, 101] := by decide

theorem bytes_returntype : str "returntype" = [114, 101, 116, 117, 114, 110, 116, 121, 112, 101] := by decide

/-! ## Request building -/

/-- C7: for every product type and every integer `years`, zero and negative ones
included, `SslCreate` hands the transport one request, with command
`namecheap.ssl.create` and a parameter set that is exactly `Type` = the product type and
`Years` = the base-10 numeral of `years` (a string that reads back as `years`), with no
other key; `SslCreate("SingleDomain", 2)` builds `Type: "SingleDomain"`, `Years: "2"`. -/
theorem SslCreate_builds_type_and_years (client : Client) (productType : GoString)
    (years : Int) :
    (∃ req, (SslCreate client productType years).sent = [req]
      ∧ req.command = str "namecheap.ssl.create"
      ∧ (∀ k, req.params.lookup k =
          if k = str "Type" then some [productType]
          else if k = str "Years" then some [Itoa years] else none)
      ∧ req.params.keys = [str "Type", str "Years"]
      ∧ (∃ v, req.params.lookup (str "Years") = some [v] ∧ readDecimal v = some years))
    ∧ (SslCreate client (str "SingleDomain") 2).sent.map (fun r => r.params.entries)
        = [[(str "Type", [str "SingleDomain"]), (str "Years", [str "2"])]] := by
  refine ⟨⟨_, rfl, rfl, ?_, ?_, ?_⟩, ?_⟩
  · intro k
    simp only [setParam_params, lookup_Set, lookup_empty, bytes_Type, bytes_Years]
    by_cases h1 : k = [84, 121, 112, 101]
    · subst h1; simp
    · simp [h1]
  · simp [Values.keys, Values.Set, Values.empty, assign, bytes_Type, bytes_Years]
  · refine ⟨Itoa years, ?_, readDecimal_Itoa years⟩
    simp [lookup_Set]
  · simp only [SslCreate, List.map]
    decide

/-! ## Validation of `ReturnType` -/

theorem map_lowerByte_of_no_upper (s : GoString)
    (h : s.any (fun c => decide (65 ≤ c ∧ c ≤ 90)) = false) : s.map lowerByte = s := by
  induction s with
  | nil => rfl
  | cons c rest ih =>
    simp only [List.any_cons, Bool.or_eq_false_iff, decide_eq_false_iff_not] at h
    simp only [List.map_cons, lowerByte, h.1, if_false, ih h.2]

/-- On a string of ASCII bytes `strings.ToLower` is the byte-wise lower-casing, whatever
the Unicode path does. -/
theorem ToLower_of_isASCII (mapLower : GoString → GoString) (s : GoString)
    (h : isASCII s = true) : ToLower mapLower s = s.map lowerByte := by
  simp only [ToLower, h, if_true]
  cases hu : s.any (fun c => decide (65 ≤ c ∧ c ≤ 90))
  · simp [map_lowerByte_of_no_upper s hu]
  · simp

theorem asciiFoldEq_iff (s t : GoString) :
    asciiFoldEq s t = true ↔ s.map lowerByte = t.map lowerByte := by
  induction s generalizing t with
  | nil => cases t <;> simp [asciiFoldEq]
  | cons a s ih =>
    cases t with
    | nil => simp [asciiFoldEq]
    | cons b t => simp [asciiFoldEq, ih t]

/-- For ASCII strings the case-insensitive match is the letter-by-letter comparison,
whatever the Unicode path of `strings.ToLower` does. -/
theorem caseInsensitiveMatch_ascii (mapLower : GoString → GoString) (s t : GoString)
    (hs : isASCII s = true) (ht : isASCII t = true) :
    caseInsensitiveMatch mapLower s t ↔ asciiFoldEq s t = true := by
  rw [caseInsensitiveMatch, ToLower_of_isASCII mapLower s hs,
    ToLower_of_isASCII mapLower t ht, asciiFoldEq_iff]

theorem ToLower_Individual (mapLower : GoString → GoString) :
    ToLower mapLower (str "Individual") = str "individual" := by
  rfl

theorem allowedReturnType_iff (mapLower : GoString → GoString) (rt : GoString) :
    allowedReturnType mapLower rt
      ↔ (ToLower mapLower rt = str "individual" ∨ rt = str "PKCS7") := by
  simp only [allowedReturnType, caseInsensitiveMatch, ToLower_Individual]

theorem Sprintf_invalidReturnType (rt : GoString) :
    Sprintf
        (str "invalid return-type: %s, parameter takes “Individual” (for X.509 format) or “PKCS7” values")
        rt
      = invalidReturnTypeMessage rt := by
  rfl

/-- What `SslGetInfo` does with a request for the certificate, by cases on the check of
`ReturnType`. -/
theorem SslGetInfo_rejected (mapLower : GoString → GoString) (client : Client)
    (id : Int) (rt : GoString) (h : ¬ allowedReturnType mapLower rt) :
    SslGetInfo mapLower client ⟨id, true, rt⟩
      = { sent := [], outcome := .ret none (some (.Errorf (invalidReturnTypeMessage rt))) } := by
  rw [allowedReturnType_iff] at h
  simp only [SslGetInfo, if_true, h, if_false, Sprintf_invalidReturnType]

theorem SslGetInfo_allowed_sent (mapLower : GoString → GoString) (client : Client)
    (id : Int) (rt : GoString) (h : allowedReturnType mapLower rt) :
    (SslGetInfo mapLower client ⟨id, true, rt⟩).sent
      = [{ command := sslGetInfo, method := str "POST",
           params := ((Values.empty.Set (str "CertificateID") (Itoa id)).Set
              (str "returncertificate") (str "true")).Set (str "returntype") rt }] := by
  rw [allowedReturnType_iff] at h
  simp only [SslGetInfo, if_true, h, ApiRequest.setParam]

theorem SslGetInfo_allowed_not_error (mapLower : GoString → GoString) (client : Client)
    (id : Int) (rt : GoString) (h : allowedReturnType mapLower rt) :
    ¬ (SslGetInfo mapLower client ⟨id, true, rt⟩).isValidationError := by
  intro hv
  have hs := SslGetInfo_allowed_sent mapLower client id rt h
  rw [hv.1] at hs
  cases hs

/-- C1: with `ReturnCertificate = true`, `SslGetInfo` ends in a local validation error
(nil result, nothing handed to the transport) if and only if `ReturnType` is neither a
case-insensitive match of `Individual` nor exactly `PKCS7`; `Individual`, `individual`,
`INDIVIDUAL` and `PKCS7` are accepted, `pkcs7` and `xyz` are rejected. For a `ReturnType`
of ASCII bytes the match is the comparison letter by letter, each letter in either
case. -/
theorem SslGetInfo_validation_error_iff (mapLower : GoString → GoString)
    (client : Client) (id : Int) (rt : GoString) :
    ((SslGetInfo mapLower client ⟨id, true, rt⟩).isValidationError
        ↔ (¬ caseInsensitiveMatch mapLower rt (str "Individual") ∧ rt ≠ str "PKCS7"))
    ∧ ¬ (SslGetInfo mapLower client ⟨id, true, str "Individual"⟩).isValidationError
    ∧ ¬ (SslGetInfo mapLower client ⟨id, true, str "individual"⟩).isValidationError
    ∧ ¬ (SslGetInfo mapLower client ⟨id, true, str "INDIVIDUAL"⟩).isValidationError
    ∧ ¬ (SslGetInfo mapLower client ⟨id, true, str "PKCS7"⟩).isValidationError
    ∧ (SslGetInfo mapLower client ⟨id, true, str "pkcs7"⟩).isValidationError
    ∧ (SslGetInfo mapLower client ⟨id, true, str "xyz"⟩).isValidationError
    ∧ (isASCII rt = true →
        ((SslGetInfo mapLower client ⟨id, true, rt⟩).isValidationError
          ↔ (asciiFoldEq rt (str "Individual") = false ∧ rt ≠ str "PKCS7"))) := by
  have rej : ∀ r, ¬ allowedReturnType mapLower r →
      (SslGetInfo mapLower client ⟨id, true, r⟩).isValidationError := by
    intro r hr
    rw [SslGetInfo_rejected mapLower client id r hr]
    exact ⟨rfl, _, rfl⟩
  have main : (SslGetInfo mapLower client ⟨id, true, rt⟩).isValidationError
      ↔ (¬ caseInsensitiveMatch mapLower rt (str "Individual") ∧ rt ≠ str "PKCS7") := by
    constructor
    · intro hv
      by_cases ha : allowedReturnType mapLower rt
      · exact absurd hv (SslGetInfo_allowed_not_error mapLower client id rt ha)
      · exact ⟨fun hc => ha (Or.inl hc), fun hp => ha (Or.inr hp)⟩
    · intro hn
      exact rej rt (fun ha => ha.elim hn.1 hn.2)
  refine ⟨main, ?_, ?_, ?_, ?_, ?_, ?_, ?_⟩
  · exact SslGetInfo_allowed_not_error mapLower client id _ (Or.inl rfl)
  · exact SslGetInfo_allowed_not_error mapLower client id _ (Or.inl rfl)
  · exact SslGetInfo_allowed_not_error mapLower client id _ (Or.inl rfl)
  · exact SslGetInfo_allowed_not_error mapLower client id _ (Or.inr rfl)
  · refine rej _ ?_
    rw [allowedReturnType_iff]
    have h1 : ToLower mapLower (str "pkcs7") = str "pkcs7" := rfl
    rw [h1]
    decide
  · refine rej _ ?_
    rw [allowedReturnType_iff]
    have h1 : ToLower mapLower (str "xyz") = str "xyz" := rfl
    rw [h1]
    decide
  · intro hascii
    rw [main, caseInsensitiveMatch_ascii mapLower rt (str "Individual") hascii (by decide),
      Bool.not_eq_true]

/-- C2: with `ReturnCertificate = false` and any `ReturnType` whatsoever, `SslGetInfo`
raises no validation error and hands the transport a parameter set that is exactly
`CertificateID` = the decimal string of `CertificateId`; the keys `returntype` and
`returncertificate` are absent. -/
theorem SslGetInfo_without_certificate (mapLower : GoString → GoString)
    (client : Client) (id : Int) (rt : GoString) :
    ¬ (SslGetInfo mapLower client ⟨id, false, rt⟩).isValidationError
    ∧ ∃ req, (SslGetInfo mapLower client ⟨id, false, rt⟩).sent = [req]
      ∧ (∀ k, req.params.lookup k = if k = str "CertificateID" then some [Itoa id] else none)
      ∧ req.params.keys = [str "CertificateID"]
      ∧ readDecimal (Itoa id) = some id
      ∧ req.params.Has (str "returntype") = false
      ∧ req.params.Has (str "returncertificate") = false := by
  have hs : (SslGetInfo mapLower client ⟨id, false, rt⟩).sent
      = [{ command := sslGetInfo, method := str "POST",
           params := Values.empty.Set (str "CertificateID") (Itoa id) }] := by
    simp [SslGetInfo, ApiRequest.setParam]
  refine ⟨?_, _, hs, ?_, ?_, readDecimal_Itoa id, ?_, ?_⟩
  · intro hv
    rw [hv.1] at hs
    cases hs
  · intro k
    simp only [lookup_Set, lookup_empty]
  · simp [Values.keys, Values.Set, Values.empty, assign]
  · simp [Values.Has, lookup_Set, lookup_empty, bytes_returntype, bytes_CertificateID]
  · simp [Values.Has, lookup_Set, lookup_empty, bytes_returncertificate, bytes_CertificateID]

/-- C9: whenever `SslGetInfo` rejects its parameters by the `ReturnType` check, the
message of the validation error holds the offending `ReturnType` verbatim as a substring
and names the two allowed values `Individual` and `PKCS7`. -/
theorem SslGetInfo_validation_message (mapLower : GoString → GoString)
    (client : Client) (params : SslGetInfoParams)
    (h : (SslGetInfo mapLower client params).isValidationError) :
    ∃ msg, (SslGetInfo mapLower client params).outcome = .ret none (some (.Errorf msg))
      ∧ msg = invalidReturnTypeMessage params.ReturnType
      ∧ params.ReturnType <:+: msg
      ∧ str "Individual" <:+: msg
      ∧ str "PKCS7" <:+: msg := by
  obtain ⟨id, rc, rt⟩ := params
  have hrc : rc = true := by
    cases rc
    · exfalso
      have hs := h.1
      simp [SslGetInfo] at hs
    · rfl
  subst hrc
  have hna : ¬ allowedReturnType mapLower rt := by
    intro ha
    exact SslGetInfo_allowed_not_error mapLower client id rt ha h
  rw [SslGetInfo_rejected mapLower client id rt hna]
  refine ⟨_, rfl, rfl, ?_, ?_, ?_⟩
  · exact ⟨str "invalid return-type: ",
      str ", parameter takes “Individual” (for X.509 format) or “PKCS7” values", rfl⟩
  · have hsplit : str ", parameter takes “Individual” (for X.509 format) or “PKCS7” values"
        = str ", parameter takes “" ++ (str "Individual"
            ++ str "” (for X.509 format) or “PKCS7” values") := by decide
    refine ⟨str "invalid return-type: " ++ rt ++ str ", parameter takes “",
      str "” (for X.509 format) or “PKCS7” values", ?_⟩
    simp only [invalidReturnTypeMessage, hsplit, List.append_assoc]
  · have hsplit : str ", parameter takes “Individual” (for X.509 format) or “PKCS7” values"
        = str ", parameter takes “Individual” (for X.509 format) or “" ++ (str "PKCS7"
            ++ str "” values") := by decide
    refine ⟨str "invalid return-type: " ++ rt
        ++ str ", parameter takes “Individual” (for X.509 format) or “",
      str "” values", ?_⟩
    simp only [invalidReturnTypeMessage, hsplit, List.append_assoc]

/-- C10: with `ReturnCertificate = true` and an accepted `ReturnType`, `SslGetInfo`
hands the transport one request, with command `namecheap.ssl.getInfo` and a parameter set
that is exactly `CertificateID` = the decimal string of `CertificateId`,
`returncertificate` = `true` and `returntype` = the caller's string byte for byte
(`INDIVIDUAL` goes out as `INDIVIDUAL`). -/
theorem SslGetInfo_with_certificate (mapLower : GoString → GoString)
    (client : Client) (id : Int) (rt : GoString)
    (h : caseInsensitiveMatch mapLower rt (str "Individual") ∨ rt = str "PKCS7") :
    (∃ req, (SslGetInfo mapLower client ⟨id, true, rt⟩).sent = [req]
      ∧ req.command = str "namecheap.ssl.getInfo"
      ∧ (∀ k, req.params.lookup k =
          if k = str "CertificateID" then some [Itoa id]
          else if k = str "returncertificate" then some [str "true"]
          else if k = str "returntype" then some [rt] else none)
      ∧ req.params.keys = [str "CertificateID", str "returncertificate", str "returntype"]
      ∧ readDecimal (Itoa id) = some id)
    ∧ (SslGetInfo mapLower client ⟨id, true, str "INDIVIDUAL"⟩).sent.map
          (fun r => r.params.lookup (str "returntype"))
        = [some [str "INDIVIDUAL"]] := by
  refine ⟨⟨_, SslGetInfo_allowed_sent mapLower client id rt h, rfl, ?_, ?_,
    readDecimal_Itoa id⟩, ?_⟩
  · intro k
    simp only [lookup_Set, lookup_empty, bytes_CertificateID, bytes_returncertificate,
      bytes_returntype]
    by_cases h1 : k = [67, 101, 114, 116, 105, 102, 105, 99, 97, 116, 101, 73, 68]
    · subst h1; simp
    · by_cases h2 : k = [114, 101, 116, 117, 114, 110, 99, 101, 114, 116, 105, 102, 105, 99,
          97, 116, 101]
      · subst h2; simp
      · simp [h1, h2]
  · simp [Values.keys, Values.Set, Values.empty, assign, bytes_CertificateID,
      bytes_returncertificate, bytes_returntype]
  · have ha : allowedReturnType mapLower (str "INDIVIDUAL") := Or.inl rfl
    rw [SslGetInfo_allowed_sent mapLower client id (str "INDIVIDUAL") ha]
    simp [lookup_Set]

/-! ## `SslActivate` and `SslReissue` -/

/-- The parameter set `SslActivate` hands to the transport, key by key. -/
theorem SslActivate_params (client : Client) (a : SslActivateParams) :
    ∃ req, (SslActivate client a).sent = [req]
      ∧ req.command = str "namecheap.ssl.activate"
      ∧ req.method = str "POST"
      ∧ ∀ k, req.params.lookup k =
          if k = str "CertificateID" then some [Itoa a.CertificateId]
          else if k = str "CSR" then some [a.Csr]
          else if k = str "AdminEmailAddress" then some [a.AdminEmailAddress]
          else if k = str "WebServerType" then some [a.WebServerType]
          else if k = str "HTTPDCValidation" then
            (if a.IsHTTPDCValidation then some [str "true"] else none)
          else if k = str "DNSDCValidation" then
            (if a.IsDNSDCValidation then some [str "true"] else none)
          else if k = str "ApproverEmail" then
            (if a.ApproverEmail = [] then none else some [a.ApproverEmail])
          else none := by
  refine ⟨_, rfl, ?_, ?_, fun k => ?_⟩
  · simp only [ite_setParam_command, setParam_command]
    rfl
  · simp only [ite_setParam_method, setParam_method]
  · simp only [lookup_ite_setParam, setParam_params, lookup_Set, lookup_empty]
    have hlen : List.length a.ApproverEmail > 0 ↔ ¬ a.ApproverEmail = [] := by
      cases a.ApproverEmail <;> simp
    simp only [hlen, bytes_CertificateID, bytes_CSR, bytes_AdminEmailAddress,
      bytes_WebServerType, bytes_HTTPDCValidation, bytes_DNSDCValidation,
      bytes_ApproverEmail]
    by_cases h1 : k = [67, 101, 114, 116, 105, 102, 105, 99, 97, 116, 101, 73, 68]
    · subst h1; simp
    by_cases h2 : k = [67, 83, 82]
    · subst h2; simp
    by_cases h3 : k = [65, 100, 109, 105, 110, 69, 109, 97, 105, 108, 65, 100, 100, 114, 101,
        115, 115]
    · subst h3; simp
    by_cases h4 : k = [87, 101, 98, 83, 101, 114, 118, 101, 114, 84, 121, 112, 101]
    · subst h4; simp
    by_cases h5 : k = [72, 84, 84, 80, 68, 67, 86, 97, 108, 105, 100, 97, 116, 105, 111, 110]
    · subst h5; simp
    by_cases h6 : k = [68, 78, 83, 68, 67, 86, 97, 108, 105, 100, 97, 116, 105, 111, 110]
    · subst h6; simp
    by_cases h7 : k = [65, 112, 112, 114, 111, 118, 101, 114, 69, 109, 97, 105, 108]
    · subst h7; simp
    simp [h1, h2, h3, h4, h5, h6, h7]

/-- The parameter set `SslReissue` hands to the transport, key by key. -/
theorem SslReissue_params (client : Client) (a : SslReissueParams) :
    ∃ req, (SslReissue client a).sent = [req]
      ∧ req.command = str "namecheap.ssl.reissue"
      ∧ req.method = str "POST"
      ∧ ∀ k, req.params.lookup k =
          if k = str "CertificateID" then some [Itoa a.CertificateId]
          else if k = str "CSR" then some [a.Csr]
          else if k = str "AdminEmailAddress" then some [a.AdminEmailAddress]
          else if k = str "WebServerType" then some [a.WebServerType]
          else if k = str "HTTPDCValidation" then
            (if a.IsHTTPDCValidation then some [str "true"] else none)
          else if k = str "DNSDCValidation" then
            (if a.IsDNSDCValidation then some [str "true"] else none)
          else if k = str "ApproverEmail" then
            (if a.ApproverEmail = [] then none else some [a.ApproverEmail])
          else none := by
  refine ⟨_, rfl, ?_, ?_, fun k => ?_⟩
  · simp only [ite_setParam_command, setParam_command]
    rfl
  · simp only [ite_setParam_method, setParam_method]
  · simp only [lookup_ite_setParam, setParam_params, lookup_Set, lookup_empty]
    have hlen : List.length a.ApproverEmail > 0 ↔ ¬ a.ApproverEmail = [] := by
      cases a.ApproverEmail <;> simp
    simp only [hlen, bytes_CertificateID, bytes_CSR, bytes_AdminEmailAddress,
      bytes_WebServerType, bytes_HTTPDCValidation, bytes_DNSDCValidation,
      bytes_ApproverEmail]
    by_cases h1 : k = [67, 101, 114, 116, 105, 102, 105, 99, 97, 116, 101, 73, 68]
    · subst h1; simp
    by_cases h2 : k = [67, 83, 82]
    · subst h2; simp
    by_cases h3 : k = [65, 100, 109, 105, 110, 69, 109, 97, 105, 108, 65, 100, 100, 114, 101,
        115, 115]
    · subst h3; simp
    by_cases h4 : k = [87, 101, 98, 83, 101, 114, 118, 101, 114, 84, 121, 112, 101]
    · subst h4; simp
    by_cases h5 : k = [72, 84, 84, 80, 68, 67, 86, 97, 108, 105, 100, 97, 116, 105, 111, 110]
    · subst h5; simp
    by_cases h6 : k = [68, 78, 83, 68, 67, 86, 97, 108, 105, 100, 97, 116, 105, 111, 110]
    · subst h6; simp
    by_cases h7 : k = [65, 112, 112, 114, 111, 118, 101, 114, 69, 109, 97, 105, 108]
    · subst h7; simp
    simp [h1, h2, h3, h4, h5, h6, h7]

theorem ite_setParam_params (c : Prop) [Decidable c] (r : ApiRequest)
    (key value : GoString) :
    (if c then r.setParam key value else r).params
      = if c then r.params.Set key value else r.params := by
  split <;> rfl

/-- C3: for every input of `SslActivate` and of `SslReissue`, the parameter set handed to
the transport has the key `HTTPDCValidation` exactly when `IsHTTPDCValidation` is true
and the key `DNSDCValidation` exactly when `IsDNSDCValidation` is true; a key that is
present holds `true`, and neither key ever holds `false`. -/
theorem dcValidation_flags_present_iff_true (client : Client) (a : SslActivateParams)
    (b : SslReissueParams) :
    (∃ req, (SslActivate client a).sent = [req]
      ∧ req.params.Has (str "HTTPDCValidation") = a.IsHTTPDCValidation
      ∧ req.params.Has (str "DNSDCValidation") = a.IsDNSDCValidation
      ∧ req.params.lookup (str "HTTPDCValidation")
          = (if a.IsHTTPDCValidation then some [str "true"] else none)
      ∧ req.params.lookup (str "DNSDCValidation")
          = (if a.IsDNSDCValidation then some [str "true"] else none)
      ∧ req.params.lookup (str "HTTPDCValidation") ≠ some [str "false"]
      ∧ req.params.lookup (str "DNSDCValidation") ≠ some [str "false"])
    ∧ (∃ req, (SslReissue client b).sent = [req]
      ∧ req.params.Has (str "HTTPDCValidation") = b.IsHTTPDCValidation
      ∧ req.params.Has (str "DNSDCValidation") = b.IsDNSDCValidation
      ∧ req.params.lookup (str "HTTPDCValidation")
          = (if b.IsHTTPDCValidation then some [str "true"] else none)
      ∧ req.params.lookup (str "DNSDCValidation")
          = (if b.IsDNSDCValidation then some [str "true"] else none)
      ∧ req.params.lookup (str "HTTPDCValidation") ≠ some [str "false"]
      ∧ req.params.lookup (str "DNSDCValidation") ≠ some [str "false"]) := by
  have hne : [str "true"] ≠ [str "false"] := by decide
  constructor
  · obtain ⟨req, hs, -, -, hk⟩ := SslActivate_params client a
    have hh := hk (str "HTTPDCValidation")
    have hd := hk (str "DNSDCValidation")
    simp only [bytes_CertificateID, bytes_CSR, bytes_AdminEmailAddress, bytes_WebServerType,
      bytes_HTTPDCValidation, bytes_DNSDCValidation, bytes_ApproverEmail] at hh hd
    simp only [List.cons.injEq, reduceCtorEq, Nat.reduceEqDiff, and_false, false_and,
      and_self, and_true, if_false, if_true] at hh hd
    rw [← bytes_HTTPDCValidation] at hh
    rw [← bytes_DNSDCValidation] at hd
    refine ⟨req, hs, ?_, ?_, hh, hd, ?_, ?_⟩
    · rw [Values.Has, hh]; cases a.IsHTTPDCValidation <;> rfl
    · rw [Values.Has, hd]; cases a.IsDNSDCValidation <;> rfl
    · rw [hh]; cases a.IsHTTPDCValidation <;> simp [hne]
    · rw [hd]; cases a.IsDNSDCValidation <;> simp [hne]
  · obtain ⟨req, hs, -, -, hk⟩ := SslReissue_params client b
    have hh := hk (str "HTTPDCValidation")
    have hd := hk (str "DNSDCValidation")
    simp only [bytes_CertificateID, bytes_CSR, bytes_AdminEmailAddress, bytes_WebServerType,
      bytes_HTTPDCValidation, bytes_DNSDCValidation, bytes_ApproverEmail] at hh hd
    simp only [List.cons.injEq, reduceCtorEq, Nat.reduceEqDiff, and_false, false_and,
      and_self, and_true, if_false, if_true] at hh hd
    rw [← bytes_HTTPDCValidation] at hh
    rw [← bytes_DNSDCValidation] at hd
    refine ⟨req, hs, ?_, ?_, hh, hd, ?_, ?_⟩
    · rw [Values.Has, hh]; cases b.IsHTTPDCValidation <;> rfl
    · rw [Values.Has, hd]; cases b.IsDNSDCValidation <;> rfl
    · rw [hh]; cases b.IsHTTPDCValidation <;> simp [hne]
    · rw [hd]; cases b.IsDNSDCValidation <;> simp [hne]

/-- C4: for every input of `SslActivate` and of `SslReissue`, the parameter set handed to
the transport has the key `ApproverEmail` if and only if the `ApproverEmail` input is not
the empty string, and the value is then the input string unchanged. -/
theorem approverEmail_present_iff_nonempty (client : Client) (a : SslActivateParams)
    (b : SslReissueParams) :
    (∃ req, (SslActivate client a).sent = [req]
      ∧ (req.params.Has (str "ApproverEmail") = true ↔ a.ApproverEmail ≠ [])
      ∧ req.params.lookup (str "ApproverEmail")
          = (if a.ApproverEmail = [] then none else some [a.ApproverEmail]))
    ∧ (∃ req, (SslReissue client b).sent = [req]
      ∧ (req.params.Has (str "ApproverEmail") = true ↔ b.ApproverEmail ≠ [])
      ∧ req.params.lookup (str "ApproverEmail")
          = (if b.ApproverEmail = [] then none else some [b.ApproverEmail])) := by
  constructor
  · obtain ⟨req, hs, -, -, hk⟩ := SslActivate_params client a
    have he := hk (str "ApproverEmail")
    simp only [bytes_CertificateID, bytes_CSR, bytes_AdminEmailAddress, bytes_WebServerType,
      bytes_HTTPDCValidation, bytes_DNSDCValidation, bytes_ApproverEmail] at he
    simp only [List.cons.injEq, reduceCtorEq, Nat.reduceEqDiff, and_false, false_and,
      and_self, and_true, if_false, if_true] at he
    rw [← bytes_ApproverEmail] at he
    refine ⟨req, hs, ?_, he⟩
    rw [Values.Has, he]
    by_cases h : a.ApproverEmail = [] <;> simp [h]
  · obtain ⟨req, hs, -, -, hk⟩ := SslReissue_params client b
    have he := hk (str "ApproverEmail")
    simp only [bytes_CertificateID, bytes_CSR, bytes_AdminEmailAddress, bytes_WebServerType,
      bytes_HTTPDCValidation, bytes_DNSDCValidation, bytes_ApproverEmail] at he
    simp only [List.cons.injEq, reduceCtorEq, Nat.reduceEqDiff, and_false, false_and,
      and_self, and_true, if_false, if_true] at he
    rw [← bytes_ApproverEmail] at he
    refine ⟨req, hs, ?_, he⟩
    rw [Values.Has, he]
    by_cases h : b.ApproverEmail = [] <;> simp [h]

/-- C8: `SslActivate` and `SslReissue` build their requests alike. For parameters with
the same seven field values the two parameter sets are equal, and so are the methods;
each set always holds `CertificateID` (the decimal string of the identifier), `CSR`,
`AdminEmailAddress` and `WebServerType` with the input values, empty or not; only the
commands differ, `namecheap.ssl.activate` against `namecheap.ssl.reissue`. -/
theorem SslActivate_SslReissue_same_building (client1 client2 : Client) (id : Int)
    (csr admin web email : GoString) (http dns : Bool) :
    (SslActivate client1 ⟨id, csr, admin, web, email, http, dns⟩).sent.map
        (fun r => r.params)
      = (SslReissue client2 ⟨id, csr, admin, web, email, http, dns⟩).sent.map
        (fun r => r.params)
    ∧ (SslActivate client1 ⟨id, csr, admin, web, email, http, dns⟩).sent.map
        (fun r => r.method)
      = (SslReissue client2 ⟨id, csr, admin, web, email, http, dns⟩).sent.map
        (fun r => r.method)
    ∧ (SslActivate client1 ⟨id, csr, admin, web, email, http, dns⟩).sent.map
        (fun r => r.command) = [str "namecheap.ssl.activate"]
    ∧ (SslReissue client2 ⟨id, csr, admin, web, email, http, dns⟩).sent.map
        (fun r => r.command) = [str "namecheap.ssl.reissue"]
    ∧ str "namecheap.ssl.activate" ≠ str "namecheap.ssl.reissue"
    ∧ (SslActivate client1 ⟨id, csr, admin, web, email, http, dns⟩).sent.map
        (fun r => (r.params.lookup (str "CertificateID"), r.params.lookup (str "CSR"),
          r.params.lookup (str "AdminEmailAddress"), r.params.lookup (str "WebServerType")))
      = [(some [Itoa id], some [csr], some [admin], some [web])]
    ∧ (SslReissue client2 ⟨id, csr, admin, web, email, http, dns⟩).sent.map
        (fun r => (r.params.lookup (str "CertificateID"), r.params.lookup (str "CSR"),
          r.params.lookup (str "AdminEmailAddress"), r.params.lookup (str "WebServerType")))
      = [(some [Itoa id], some [csr], some [admin], some [web])]
    ∧ readDecimal (Itoa id) = some id := by
  obtain ⟨ra, hsa, hca, hma, hka⟩ :=
    SslActivate_params client1 ⟨id, csr, admin, web, email, http, dns⟩
  obtain ⟨rb, hsb, hcb, hmb, hkb⟩ :=
    SslReissue_params client2 ⟨id, csr, admin, web, email, http, dns⟩
  have h1a := hka (str "CertificateID")
  have h2a := hka (str "CSR")
  have h3a := hka (str "AdminEmailAddress")
  have h4a := hka (str "WebServerType")
  have h1b := hkb (str "CertificateID")
  have h2b := hkb (str "CSR")
  have h3b := hkb (str "AdminEmailAddress")
  have h4b := hkb (str "WebServerType")
  have n1 : ¬ str "CSR" = str "CertificateID" := by decide
  have n2 : ¬ str "AdminEmailAddress" = str "CertificateID" := by decide
  have n3 : ¬ str "AdminEmailAddress" = str "CSR" := by decide
  have n4 : ¬ str "WebServerType" = str "CertificateID" := by decide
  have n5 : ¬ str "WebServerType" = str "CSR" := by decide
  have n6 : ¬ str "WebServerType" = str "AdminEmailAddress" := by decide
  simp only [if_true, n1, n2, n3, n4, n5, n6, if_false] at h1a h2a h3a h4a h1b h2b h3b h4b
  refine ⟨?_, ?_, ?_, ?_, by decide, ?_, ?_, readDecimal_Itoa id⟩
  · simp only [SslActivate, SslReissue, List.map, ite_setParam_params, setParam_params]
  · rw [hsa, hsb]; simp only [List.map, hma, hmb]
  · rw [hsa]; simp only [List.map, hca]
  · rw [hsb]; simp only [List.map, hcb]
  · rw [hsa]; simp only [List.map, h1a, h2a, h3a, h4a]
  · rw [hsb]; simp only [List.map, h1b, h2b, h3b, h4b]

/-! ## Transport errors and response projection -/

/-- C5: each of the five operations, on every input that gets past local validation,
hands exactly one request `req` to the transport, and if the transport returns an error
`e` for `req`, whatever response comes with it, the operation returns that same `e` and
a nil result. -/
theorem transport_error_returned_verbatim (mapLower : GoString → GoString)
    (client : Client) :
    (∃ req, (SslGetList client).sent = [req]
      ∧ ∀ resp e, client.do_ req = (resp, some e) →
          (SslGetList client).outcome = .ret none (some e))
    ∧ (∀ productType years, ∃ req, (SslCreate client productType years).sent = [req]
      ∧ ∀ resp e, client.do_ req = (resp, some e) →
          (SslCreate client productType years).outcome = .ret none (some e))
    ∧ (∀ params, ∃ req, (SslActivate client params).sent = [req]
      ∧ ∀ resp e, client.do_ req = (resp, some e) →
          (SslActivate client params).outcome = .ret none (some e))
    ∧ (∀ params, ∃ req, (SslReissue client params).sent = [req]
      ∧ ∀ resp e, client.do_ req = (resp, some e) →
          (SslReissue client params).outcome = .ret none (some e))
    ∧ (∀ params, passesValidation mapLower params →
        ∃ req, (SslGetInfo mapLower client params).sent = [req]
          ∧ ∀ resp e, client.do_ req = (resp, some e) →
              (SslGetInfo mapLower client params).outcome = .ret none (some e)) := by
  refine ⟨?_, ?_, ?_, ?_, ?_⟩
  · obtain ⟨req, hs⟩ : ∃ req, (SslGetList client).sent = [req] := ⟨_, rfl⟩
    refine ⟨req, hs, fun resp e hd => ?_⟩
    simp only [SslGetList, List.cons.injEq, and_true] at hs
    subst hs
    simp only [SslGetList, hd]
  · intro productType years
    obtain ⟨req, hs⟩ : ∃ req, (SslCreate client productType years).sent = [req] :=
      ⟨_, rfl⟩
    refine ⟨req, hs, fun resp e hd => ?_⟩
    simp only [SslCreate, List.cons.injEq, and_true] at hs
    subst hs
    simp only [SslCreate, hd]
  · intro params
    obtain ⟨req, hs⟩ : ∃ req, (SslActivate client params).sent = [req] := ⟨_, rfl⟩
    refine ⟨req, hs, fun resp e hd => ?_⟩
    simp only [SslActivate, List.cons.injEq, and_true] at hs
    subst hs
    simp only [SslActivate, hd]
  · intro params
    obtain ⟨req, hs⟩ : ∃ req, (SslReissue client params).sent = [req] := ⟨_, rfl⟩
    refine ⟨req, hs, fun resp e hd => ?_⟩
    simp only [SslReissue, List.cons.injEq, and_true] at hs
    subst hs
    simp only [SslReissue, hd]
  · intro params hp
    obtain ⟨id, rc, rt⟩ := params
    cases rc
    · obtain ⟨req, hs⟩ : ∃ req, (SslGetInfo mapLower client ⟨id, false, rt⟩).sent = [req] :=
        ⟨_, by simp only [SslGetInfo, Bool.false_eq_true, if_false]; rfl⟩
      refine ⟨req, hs, fun resp e hd => ?_⟩
      simp only [SslGetInfo, Bool.false_eq_true, if_false, List.cons.injEq, and_true] at hs
      subst hs
      simp only [SslGetInfo, Bool.false_eq_true, if_false, hd]
    · have ha : ToLower mapLower rt = str "individual" ∨ rt = str "PKCS7" :=
        (allowedReturnType_iff mapLower rt).mp (hp rfl)
      obtain ⟨req, hs⟩ : ∃ req, (SslGetInfo mapLower client ⟨id, true, rt⟩).sent = [req] :=
        ⟨_, by simp only [SslGetInfo, if_true, ha]; rfl⟩
      refine ⟨req, hs, fun resp e hd => ?_⟩
      simp only [SslGetInfo, if_true, ha, List.cons.injEq, and_true] at hs
      subst hs
      simp only [SslGetInfo, if_true, ha, hd]

/-- C6: each operation hands exactly one request `req` to the transport (`SslGetInfo`
on every input that gets past local validation), and when the transport answers `req`
with an envelope `r` and no error, the operation returns its own field of `r` and a nil
error: `SslGetList` the field `SslCertificates`, `SslCreate` the field `SslCreate`,
`SslActivate` the field `SslActivate`, `SslReissue` the field `SslReissue`, `SslGetInfo`
the field `SslCertificateDetails`. With an envelope in which only the activate result is
populated, `SslActivate` returns that result and the four others return a nil result
and a nil error. -/
theorem success_returns_own_field (mapLower : GoString → GoString) (client : Client)
    (a : SslActivateResult) :
    (∃ req, (SslGetList client).sent = [req]
      ∧ ∀ r, client.do_ req = (some r, none) →
          (SslGetList client).outcome = .ret r.SslCertificates none)
    ∧ (∀ productType years, ∃ req, (SslCreate client productType years).sent = [req]
      ∧ ∀ r, client.do_ req = (some r, none) →
          (SslCreate client productType years).outcome = .ret r.SslCreate none)
    ∧ (∀ params, ∃ req, (SslActivate client params).sent = [req]
      ∧ ∀ r, client.do_ req = (some r, none) →
          (SslActivate client params).outcome = .ret r.SslActivate none)
    ∧ (∀ params, ∃ req, (SslReissue client params).sent = [req]
      ∧ ∀ r, client.do_ req = (some r, none) →
          (SslReissue client params).outcome = .ret r.SslReissue none)
    ∧ (∀ params, passesValidation mapLower params →
        ∃ req, (SslGetInfo mapLower client params).sent = [req]
          ∧ ∀ r, client.do_ req = (some r, none) →
              (SslGetInfo mapLower client params).outcome
                = .ret r.SslCertificateDetails none)
    ∧ (SslGetList (constClient (some (activateOnlyResponse a)) none)).outcome
        = .ret none none
    ∧ (∀ productType years,
        (SslCreate (constClient (some (activateOnlyResponse a)) none) productType
          years).outcome = .ret none none)
    ∧ (∀ params,
        (SslActivate (constClient (some (activateOnlyResponse a)) none) params).outcome
          = .ret (some a) none)
    ∧ (∀ params,
        (SslReissue (constClient (some (activateOnlyResponse a)) none) params).outcome
          = .ret none none)
    ∧ (∀ params, passesValidation mapLower params →
        (SslGetInfo mapLower (constClient (some (activateOnlyResponse a)) none)
          params).outcome = .ret none none)
    ∧ (∀ params, ∃ err,
        (SslGetInfo mapLower (constClient (some (activateOnlyResponse a)) none)
          params).outcome = .ret none err) := by
  refine ⟨?_, ?_, ?_, ?_, ?_, rfl, fun _ _ => rfl, fun _ => rfl, fun _ => rfl, ?_, ?_⟩
  · obtain ⟨req, hs⟩ : ∃ req, (SslGetList client).sent = [req] := ⟨_, rfl⟩
    refine ⟨req, hs, fun r hd => ?_⟩
    simp only [SslGetList, List.cons.injEq, and_true] at hs
    subst hs
    simp only [SslGetList, hd]
  · intro productType years
    obtain ⟨req, hs⟩ : ∃ req, (SslCreate client productType years).sent = [req] :=
      ⟨_, rfl⟩
    refine ⟨req, hs, fun r hd => ?_⟩
    simp only [SslCreate, List.cons.injEq, and_true] at hs
    subst hs
    simp only [SslCreate, hd]
  · intro params
    obtain ⟨req, hs⟩ : ∃ req, (SslActivate client params).sent = [req] := ⟨_, rfl⟩
    refine ⟨req, hs, fun r hd => ?_⟩
    simp only [SslActivate, List.cons.injEq, and_true] at hs
    subst hs
    simp only [SslActivate, hd]
  · intro params
    obtain ⟨req, hs⟩ : ∃ req, (SslReissue client params).sent = [req] := ⟨_, rfl⟩
    refine ⟨req, hs, fun r hd => ?_⟩
    simp only [SslReissue, List.cons.injEq, and_true] at hs
    subst hs
    simp only [SslReissue, hd]
  · intro params hp
    obtain ⟨id, rc, rt⟩ := params
    cases rc
    · obtain ⟨req, hs⟩ : ∃ req, (SslGetInfo mapLower client ⟨id, false, rt⟩).sent = [req] :=
        ⟨_, by simp only [SslGetInfo, Bool.false_eq_true, if_false]; rfl⟩
      refine ⟨req, hs, fun r hd => ?_⟩
      simp only [SslGetInfo, Bool.false_eq_true, if_false, List.cons.injEq, and_true] at hs
      subst hs
      simp only [SslGetInfo, Bool.false_eq_true, if_false, hd]
    · have ha : ToLower mapLower rt = str "individual" ∨ rt = str "PKCS7" :=
        (allowedReturnType_iff mapLower rt).mp (hp rfl)
      obtain ⟨req, hs⟩ : ∃ req, (SslGetInfo mapLower client ⟨id, true, rt⟩).sent = [req] :=
        ⟨_, by simp only [SslGetInfo, if_true, ha]; rfl⟩
      refine ⟨req, hs, fun r hd => ?_⟩
      simp only [SslGetInfo, if_true, ha, List.cons.injEq, and_true] at hs
      subst hs
      simp only [SslGetInfo, if_true, ha, hd]
  · intro params hp
    obtain ⟨id, rc, rt⟩ := params
    cases rc
    · simp only [SslGetInfo, Bool.false_eq_true, if_false, constClient,
        activateOnlyResponse]
    · have ha : ToLower mapLower rt = str "individual" ∨ rt = str "PKCS7" :=
        (allowedReturnType_iff mapLower rt).mp (hp rfl)
      simp only [SslGetInfo, if_true, ha, constClient, activateOnlyResponse]
  · intro params
    obtain ⟨id, rc, rt⟩ := params
    cases rc
    · exact ⟨none, by simp only [SslGetInfo, Bool.false_eq_true, if_false, constClient,
        activateOnlyResponse]⟩
    · by_cases ha : ToLower mapLower rt = str "individual" ∨ rt = str "PKCS7"
      · exact ⟨none, by simp only [SslGetInfo, if_true, ha, constClient,
          activateOnlyResponse]⟩
      · exact ⟨some (.Errorf (invalidReturnTypeMessage rt)), by
          simp only [SslGetInfo, if_true, ha, if_false, Sprintf_invalidReturnType]⟩

/-! ## Concrete instances -/

theorem SslGetInfo_accepts_mixed_case :
    isASCII (str "InDiViDuAl") = true
    ∧ ¬ (SslGetInfo id (constClient none none) ⟨42, true, str "InDiViDuAl"⟩).isValidationError :=
  ⟨by decide, fun hv =>
    absurd
      (((SslGetInfo_validation_error_iff id (constClient none none) 42
        (str "InDiViDuAl")).2.2.2.2.2.2.2 (by decide)).mp hv).1
      (by decide)⟩

theorem SslGetInfo_validation_message_xyz :
    (SslGetInfo id (constClient none none) ⟨42, true, str "xyz"⟩).isValidationError
    ∧ ∃ msg, (SslGetInfo id (constClient none none) ⟨42, true, str "xyz"⟩).outcome
          = .ret none (some (.Errorf msg))
      ∧ msg = invalidReturnTypeMessage (str "xyz")
      ∧ str "xyz" <:+: msg
      ∧ str "Individual" <:+: msg
      ∧ str "PKCS7" <:+: msg :=
  ⟨⟨rfl, _, rfl⟩,
    SslGetInfo_validation_message id (constClient none none) ⟨42, true, str "xyz"⟩
      ⟨rfl, _, rfl⟩⟩

theorem SslGetInfo_with_certificate_PKCS7 :
    (caseInsensitiveMatch id (str "PKCS7") (str "Individual") ∨ str "PKCS7" = str "PKCS7")
    ∧ (∃ req, (SslGetInfo id (constClient none none) ⟨42, true, str "PKCS7"⟩).sent = [req]
      ∧ req.command = str "namecheap.ssl.getInfo"
      ∧ (∀ k, req.params.lookup k =
          if k = str "CertificateID" then some [Itoa 42]
          else if k = str "returncertificate" then some [str "true"]
          else if k = str "returntype" then some [str "PKCS7"] else none)
      ∧ req.params.keys = [str "CertificateID", str "returncertificate", str "returntype"]
      ∧ readDecimal (Itoa 42) = some 42)
    ∧ (SslGetInfo id (constClient none none) ⟨42, true, str "INDIVIDUAL"⟩).sent.map
          (fun r => r.params.lookup (str "returntype"))
        = [some [str "INDIVIDUAL"]] :=
  ⟨Or.inr rfl,
    SslGetInfo_with_certificate id (constClient none none) 42 (str "PKCS7") (Or.inr rfl)⟩

theorem transport_error_returned_verbatim_instance :
    (SslGetList (constClient none (some (.transport 503)))).outcome
        = .ret none (some (.transport 503))
    ∧ (SslCreate (constClient none (some (.transport 503))) (str "SingleDomain") 2).outcome
        = .ret none (some (.transport 503))
    ∧ (SslActivate (constClient (some sampleFullResponse) (some (.transport 503)))
          ⟨11, str "csr", str "a@example.com", str "nginx", [], true, false⟩).outcome
        = .ret none (some (.transport 503))
    ∧ (SslReissue (constClient (some sampleFullResponse) (some (.Errorf (str "timeout"))))
          ⟨11, str "csr", str "a@example.com", str "nginx", [], false, true⟩).outcome
        = .ret none (some (.Errorf (str "timeout")))
    ∧ passesValidation id ⟨42, true, str "PKCS7"⟩
    ∧ (SslGetInfo id (constClient none (some (.transport 503)))
          ⟨42, true, str "PKCS7"⟩).outcome
        = .ret none (some (.transport 503)) :=
  ⟨match (transport_error_returned_verbatim id
        (constClient none (some (.transport 503)))).1 with
    | ⟨_, _, h⟩ => h none (.transport 503) rfl,
   match (transport_error_returned_verbatim id
        (constClient none (some (.transport 503)))).2.1 (str "SingleDomain") 2 with
    | ⟨_, _, h⟩ => h none (.transport 503) rfl,
   match (transport_error_returned_verbatim id
        (constClient (some sampleFullResponse) (some (.transport 503)))).2.2.1
        ⟨11, str "csr", str "a@example.com", str "nginx", [], true, false⟩ with
    | ⟨_, _, h⟩ => h (some sampleFullResponse) (.transport 503) rfl,
   match (transport_error_returned_verbatim id
        (constClient (some sampleFullResponse) (some (.Errorf (str "timeout"))))).2.2.2.1
        ⟨11, str "csr", str "a@example.com", str "nginx", [], false, true⟩ with
    | ⟨_, _, h⟩ => h (some sampleFullResponse) (.Errorf (str "timeout")) rfl,
   fun _ => Or.inr rfl,
   match (transport_error_returned_verbatim id
        (constClient none (some (.transport 503)))).2.2.2.2
        ⟨42, true, str "PKCS7"⟩ (fun _ => Or.inr rfl) with
    | ⟨_, _, h⟩ => h none (.transport 503) rfl⟩

theorem success_returns_own_field_instance :
    (SslGetList (constClient (some sampleFullResponse) none)).outcome
        = .ret (some [sampleListRow]) none
    ∧ (SslCreate (constClient (some sampleFullResponse) none) (str "SingleDomain")
          2).outcome = .ret (some sampleCreateResult) none
    ∧ (SslActivate (constClient (some sampleFullResponse) none)
          ⟨11, str "csr", str "a@example.com", str "nginx", [], true, false⟩).outcome
        = .ret (some sampleActivateResult) none
    ∧ (SslReissue (constClient (some sampleFullResponse) none)
          ⟨11, str "csr", str "a@example.com", str "nginx", [], false, true⟩).outcome
        = .ret (some sampleReissueResult) none
    ∧ passesValidation id ⟨42, true, str "PKCS7"⟩
    ∧ (SslGetInfo id (constClient (some sampleFullResponse) none)
          ⟨42, true, str "PKCS7"⟩).outcome
        = .ret (some sampleInfoResult) none :=
  ⟨match (success_returns_own_field id (constClient (some sampleFullResponse) none)
        sampleActivateResult).1 with
    | ⟨_, _, h⟩ => h sampleFullResponse rfl,
   match (success_returns_own_field id (constClient (some sampleFullResponse) none)
        sampleActivateResult).2.1 (str "SingleDomain") 2 with
    | ⟨_, _, h⟩ => h sampleFullResponse rfl,
   match (success_returns_own_field id (constClient (some sampleFullResponse) none)
        sampleActivateResult).2.2.1
        ⟨11, str "csr", str "a@example.com", str "nginx", [], true, false⟩ with
    | ⟨_, _, h⟩ => h sampleFullResponse rfl,
   match (success_returns_own_field id (constClient (some sampleFullResponse) none)
        sampleActivateResult).2.2.2.1
        ⟨11, str "csr", str "a@example.com", str "nginx", [], false, true⟩ with
    | ⟨_, _, h⟩ => h sampleFullResponse rfl,
   fun _ => Or.inr rfl,
   match (success_returns_own_field id (constClient (some sampleFullResponse) none)
        sampleActivateResult).2.2.2.2.1
        ⟨42, true, str "PKCS7"⟩ (fun _ => Or.inr rfl) with
    | ⟨_, _, h⟩ => h sampleFullResponse rfl⟩

end Namecheap
